import Mathlib

/-!
Verification of `src/http_request.c`.

The file defines two C functions built on libcurl:

* `write_data(buffer, size, nmemb, userp)` — the `CURLOPT_WRITEFUNCTION`
  callback; it ignores the buffer and returns `size * nmemb` (computed in
  `size_t`, i.e. modulo 2^64).
* `http_get(url)` — acquires a curl handle with `curl_easy_init`, sets the
  URL and the write callback (with `CURLOPT_WRITEDATA` = NULL), calls
  `curl_easy_perform` once, on failure prints one diagnostic line to
  stderr, on success reads `CURLINFO_RESPONSE_CODE` into `http_code`
  (initialised to 0), releases the handle with `curl_easy_cleanup`, and
  returns `http_code`.

The embedding makes the external library's behaviour an explicit
environment (`CurlEnv`): whether `curl_easy_init` yields a handle, the
`CURLcode` of `curl_easy_perform`, the response code that
`curl_easy_getinfo(CURLINFO_RESPONSE_CODE)` reports, the narrative from
`curl_easy_strerror`, and the body chunks the transfer delivers to the
write callback.  `http_get` becomes a pure function from this environment
to an observable result (`HttpGetResult`): the returned `long`, the lines
written to stderr, the number of handles acquired and released, the number
of `curl_easy_perform` calls, and the number of body bytes acknowledged by
the callback.
-/

/-- The modulus of C `size_t` arithmetic (64-bit). -/
def size_t_mod : Nat := 2 ^ 64

/-- Embedding of `write_data` (src/http_request.c, lines 5-7).  The body
bytes in `buffer` and the `userp` pointer are parameters of the C
function that its body never reads; the function returns the `size_t`
product `size * nmemb`. -/
def write_data (buffer : List Nat) (size nmemb : Nat) (userp : Option Unit) : Nat :=
  (size * nmemb) % size_t_mod

/-- Behaviour of the libcurl library during one `http_get` call. -/
structure CurlEnv where
  /-- `curl_easy_init()` returns a non-NULL handle. -/
  initOk : Bool
  /-- The `CURLcode` returned by `curl_easy_perform` (0 is `CURLE_OK`). -/
  performRes : Nat
  /-- The `long` that `curl_easy_getinfo(CURLINFO_RESPONSE_CODE)` stores:
  the status code of the server's response, or 0 when none is available. -/
  respCode : Int
  /-- The string `curl_easy_strerror(performRes)`. -/
  errStr : String
  /-- The body chunks the transfer hands to the write callback. -/
  bodyChunks : List (List Nat)
deriving DecidableEq

/-- The `CURLcode` for success. -/
def CURLE_OK : Nat := 0

/-- Everything one `http_get` call returns or effects. -/
structure HttpGetResult where
  /-- The `long` value `http_get` returns. -/
  ret : Int
  /-- The lines written to the standard error stream. -/
  stderrLines : List String
  /-- How many curl handles the call acquired. -/
  handlesAcquired : Nat
  /-- How many curl handles the call released. -/
  handlesReleased : Nat
  /-- How many times `curl_easy_perform` was invoked. -/
  performCalls : Nat
  /-- Total bytes the write callback acknowledged to the transport. -/
  bytesAcked : Nat
deriving DecidableEq

/-- Embedding of `http_get` (src/http_request.c, lines 9-30) over the
library behaviour `env`.  It mirrors the C control flow: `http_code`
starts at 0; if `curl_easy_init` yields a handle, the one
`curl_easy_perform` call runs (delivering each body chunk to
`write_data`, with `userp` the NULL `CURLOPT_WRITEDATA`); a non-`CURLE_OK`
result prints one diagnostic line and leaves `http_code` at 0, otherwise
`curl_easy_getinfo` stores the response code; `curl_easy_cleanup` releases
the handle on both branches before the return. -/
def http_get (env : CurlEnv) : HttpGetResult :=
  if env.initOk then
    let acked := (env.bodyChunks.map (fun c => write_data c 1 c.length none)).sum
    if env.performRes ≠ CURLE_OK then
      { ret := 0
        stderrLines := ["curl_easy_perform() failed: " ++ env.errStr]
        handlesAcquired := 1
        handlesReleased := 1
        performCalls := 1
        bytesAcked := acked }
    else
      { ret := env.respCode
        stderrLines := []
        handlesAcquired := 1
        handlesReleased := 1
        performCalls := 1
        bytesAcked := acked }
  else
    { ret := 0
      stderrLines := []
      handlesAcquired := 0
      handlesReleased := 0
      performCalls := 0
      bytesAcked := 0 }

/-- A run where the handle is acquired and the server answers 404. -/
def envSuccess404 : CurlEnv :=
  { initOk := true, performRes := 0, respCode := 404, errStr := "",
    bodyChunks := [[78, 111], [116, 32, 70]] }

/-- A run where the handle is acquired but name resolution fails
(`curl_easy_perform` returns `CURLE_COULDNT_RESOLVE_HOST` = 6). -/
def envResolveFail : CurlEnv :=
  { initOk := true, performRes := 6, respCode := 0,
    errStr := "Could not resolve host name", bodyChunks := [] }

/-- A run where `curl_easy_init` returns NULL. -/
def envNoHandle : CurlEnv :=
  { initOk := false, performRes := 0, respCode := 0, errStr := "",
    bodyChunks := [] }

/-- A run where the request completes but the client reports code 0. -/
def envZeroCode : CurlEnv :=
  { initOk := true, performRes := 0, respCode := 0, errStr := "",
    bodyChunks := [] }

/-- C1: when the handle is acquired and `curl_easy_perform` succeeds,
`http_get` returns the status code the client reports for the server's
response. -/
theorem http_get_success_returns_server_code (env : CurlEnv)
    (hinit : env.initOk = true) (hok : env.performRes = CURLE_OK) :
    (http_get env).ret = env.respCode := by
  simp [http_get, hinit, hok]

/-- C1 witness: a server answering 404 yields return value 404. -/
theorem http_get_success_returns_server_code_witness :
    (http_get envSuccess404).ret = 404 :=
  http_get_success_returns_server_code envSuccess404 rfl rfl

/-- C2: when the handle is acquired but the request cannot be completed
(`curl_easy_perform` returns any non-`CURLE_OK` code), `http_get` returns
the sentinel 0 — the same value whatever the failure cause, so no
distinguishable error reaches the caller. -/
theorem http_get_failure_returns_zero (env : CurlEnv)
    (hinit : env.initOk = true) (hfail : env.performRes ≠ CURLE_OK) :
    (http_get env).ret = 0 := by
  simp [http_get, hinit, hfail]

/-- C2 witness: an unresolvable host yields return value 0. -/
theorem http_get_failure_returns_zero_witness :
    (http_get envResolveFail).ret = 0 :=
  http_get_failure_returns_zero envResolveFail rfl (by decide)

/-- C3: every call acquires at most one handle and releases exactly the
handles it acquired, so any sequence of calls leaves the net handle count
at baseline 0. -/
theorem http_get_handle_balance :
    (∀ env : CurlEnv,
      (http_get env).handlesReleased = (http_get env).handlesAcquired ∧
      (http_get env).handlesAcquired ≤ 1) ∧
    ∀ envs : List CurlEnv,
      (envs.map (fun e =>
        ((http_get e).handlesAcquired : Int) -
          ((http_get e).handlesReleased : Int))).sum = 0 := by
  have hbal : ∀ env : CurlEnv,
      (http_get env).handlesReleased = (http_get env).handlesAcquired ∧
      (http_get env).handlesAcquired ≤ 1 := by
    intro env
    by_cases h1 : env.initOk <;> by_cases h2 : env.performRes = CURLE_OK <;>
      simp [http_get, h1, h2]
  refine ⟨hbal, ?_⟩
  intro envs
  induction envs with
  | nil => simp
  | cons e es ih =>
      have he := (hbal e).1
      simp [ih, he]

/-- C4 counterexample: the claim says every call that fails (returns the
sentinel 0 instead of a real status code) writes exactly one diagnostic
line to stderr.  A call in which `curl_easy_init` returns NULL returns 0
yet writes no line at all: the `if(curl)` guard skips the whole body,
including the `fprintf`. -/
theorem http_get_failed_call_silent_counterexample :
    (http_get envNoHandle).ret = 0 ∧
    (http_get envNoHandle).stderrLines.length = 0 := by
  constructor <;> rfl

/-- C4 amended: when the handle is acquired and `curl_easy_perform`
fails, exactly one diagnostic line naming the failure reason
(`curl_easy_strerror` of the result code) is written to stderr. -/
theorem http_get_perform_failure_one_diag (env : CurlEnv)
    (hinit : env.initOk = true) (hfail : env.performRes ≠ CURLE_OK) :
    (http_get env).stderrLines =
      ["curl_easy_perform() failed: " ++ env.errStr] := by
  simp [http_get, hinit, hfail]

/-- C4 witness: the unresolvable-host run emits exactly the one line
built from the resolver error string. -/
theorem http_get_perform_failure_one_diag_witness :
    (http_get envResolveFail).stderrLines =
      ["curl_easy_perform() failed: Could not resolve host name"] :=
  http_get_perform_failure_one_diag envResolveFail rfl (by decide)

/-- C5: two runs whose library behaviour agrees on everything but the
delivered body chunks (same init outcome, same transport result, same
reported status, same error string) produce the same return value and the
same stderr output: the body bytes never influence either. -/
theorem http_get_body_never_influences_result (e1 e2 : CurlEnv)
    (h1 : e1.initOk = e2.initOk) (h2 : e1.performRes = e2.performRes)
    (h3 : e1.respCode = e2.respCode) (h4 : e1.errStr = e2.errStr) :
    (http_get e1).ret = (http_get e2).ret ∧
    (http_get e1).stderrLines = (http_get e2).stderrLines := by
  constructor <;>
  · simp only [http_get, h1, h2, h3, h4]
    by_cases hc : e2.initOk <;> by_cases hp : e2.performRes = CURLE_OK <;>
      simp [hc, hp]

/-- C5 witness: the 404 run with a different body gives the same return
value and the same (empty) stderr output as `envSuccess404`. -/
theorem http_get_body_never_influences_result_witness :
    (http_get envSuccess404).ret =
      (http_get { envSuccess404 with bodyChunks := [[79, 75]] }).ret ∧
    (http_get envSuccess404).stderrLines =
      (http_get { envSuccess404 with bodyChunks := [[79, 75]] }).stderrLines :=
  http_get_body_never_influences_result envSuccess404
    { envSuccess404 with bodyChunks := [[79, 75]] } rfl rfl rfl rfl

/-- C6: for every input whose byte count fits in `size_t` (as every chunk
a transport delivers does), `write_data` returns exactly `size * nmemb`,
acknowledging every delivered byte, so the transfer is never aborted by a
short callback return and the whole body is downloaded and discarded. -/
theorem write_data_acks_all_bytes (buffer : List Nat) (size nmemb : Nat)
    (userp : Option Unit) (h : size * nmemb < size_t_mod) :
    write_data buffer size nmemb userp = size * nmemb := by
  simp [write_data, Nat.mod_eq_of_lt h]

/-- C6 witness: a 5-byte chunk is acknowledged in full. -/
theorem write_data_acks_all_bytes_witness :
    write_data [72, 101, 108, 108, 111] 1 5 none = 1 * 5 :=
  write_data_acks_all_bytes [72, 101, 108, 108, 111] 1 5 none (by decide)

/-- C7: every call invokes `curl_easy_perform` at most once — no retry is
ever attempted on any path. -/
theorem http_get_single_attempt (env : CurlEnv) :
    (http_get env).performCalls ≤ 1 := by
  by_cases h1 : env.initOk <;> by_cases h2 : env.performRes = CURLE_OK <;>
    simp [http_get, h1, h2]

/-- C8: when `curl_easy_init` returns NULL, `http_get` returns 0 without
issuing any request and without writing anything to stderr. -/
theorem http_get_no_handle_silent_zero (env : CurlEnv)
    (h : env.initOk = false) :
    (http_get env).ret = 0 ∧ (http_get env).stderrLines = [] ∧
    (http_get env).performCalls = 0 := by
  simp [http_get, h]

/-- C8 witness: the NULL-handle run returns 0, silently, with no
request issued. -/
theorem http_get_no_handle_silent_zero_witness :
    (http_get envNoHandle).ret = 0 ∧
    (http_get envNoHandle).stderrLines = [] ∧
    (http_get envNoHandle).performCalls = 0 :=
  http_get_no_handle_silent_zero envNoHandle rfl

/-- C9: 0 is not exclusive to the failure path: in a run where the
request completes successfully (one `curl_easy_perform` call, no stderr
output) but the client reports response code 0, `http_get` returns 0 —
the success branch returns the reported code without checking that it is
nonzero. -/
theorem http_get_zero_on_success :
    (http_get envZeroCode).performCalls = 1 ∧
    (http_get envZeroCode).stderrLines = [] ∧
    (http_get envZeroCode).ret = 0 := by
  refine ⟨rfl, rfl, rfl⟩

/-- C10: when the handle is acquired and `curl_easy_perform` succeeds,
nothing is written to stderr — the diagnostic `fprintf` sits only on the
failure branch. -/
theorem http_get_success_silent (env : CurlEnv)
    (hinit : env.initOk = true) (hok : env.performRes = CURLE_OK) :
    (http_get env).stderrLines = [] := by
  simp [http_get, hinit, hok]

/-- C10 witness: the successful 404 run writes nothing to stderr. -/
theorem http_get_success_silent_witness :
    (http_get envSuccess404).stderrLines = [] :=
  http_get_success_silent envSuccess404 rfl rfl
